import Mathlib

/-!
Verification of the core logic of the `i3pystatus` Galaxy Buds module
(`i3pystatus/buds.py`): battery-level reconciliation, drift/case
notification decisions, placement glyph translation, touchpad lock
display, cyclic equalizer stepping, and the color-gradient table.

Battery levels and placement codes arrive from a JSON payload as
integers, so they are modelled as `Int`; string formatting mirrors the
Python f-strings; a desktop notification is modelled as an explicit
value handed to the (external) delivery sink.
-/

/- Placement codes of `BudsPlacementStatus` (an `IntEnum`): the payload
carries the raw integer values, which the code compares against the enum
members. -/
namespace BudsPlacementStatus

def wearing : Int := 1

def idle : Int := 2

def case_ : Int := 3

end BudsPlacementStatus

/-- Equalizer modes of the `BudsEqualizer` enum, in declaration order. -/
inductive BudsEqualizer where
  | off
  | bass
  | soft
  | dynamic
  | clear
  | treble
deriving DecidableEq

/-- Declaration-order list of all equalizer modes; `len(BudsEqualizer)` is
its length. -/
def BudsEqualizer.members : List BudsEqualizer :=
  [.off, .bass, .soft, .dynamic, .clear, .treble]

/-- Ordinal value of each equalizer mode (the `Enum` member values 0..5). -/
def BudsEqualizer.val : BudsEqualizer → Int
  | .off => 0
  | .bass => 1
  | .soft => 2
  | .dynamic => 3
  | .clear => 4
  | .treble => 5

/-- The `BudsEqualizer(v)` enum constructor: `some` member when `v` is one
of the six declared values, `none` standing for the `ValueError` Python
raises otherwise. -/
def budsEqualizerOfInt? (v : Int) : Option BudsEqualizer :=
  if v = 0 then some .off
  else if v = 1 then some .bass
  else if v = 2 then some .soft
  else if v = 3 then some .dynamic
  else if v = 4 then some .clear
  else if v = 5 then some .treble
  else none

/-- A desktop notification handed to the external delivery sink
(`DesktopNotification(title=..., body=..., icon=..., urgency=...)`). -/
structure DesktopNote where
  title : String
  body : String
  icon : String
  urgency : Int
deriving DecidableEq

/-- Configuration attributes of the `Buds` class read by the battery and
placement logic. -/
structure BudsState where
  battery_drift_threshold : Int
  use_battery_drift_threshold : Bool
  enable_notifications : Bool
  wearing_symbol : String
  idle_symbol : String
  case_symbol : String
  battery_case_symbol : String
deriving DecidableEq

/-- Class defaults of `Buds`. -/
def defaultBuds : BudsState :=
  { battery_drift_threshold := 3
    use_battery_drift_threshold := true
    enable_notifications := true
    wearing_symbol := "W"
    idle_symbol := "I"
    case_symbol := "C"
    battery_case_symbol := "C" }

/-- Combined battery level of `battery_display_status` (buds.py 179-182):
`min`, inverted to `max` when one bud reads exactly 0. -/
def combined_level (left_battery right_battery : Int) : Int :=
  if left_battery = 0 ∨ right_battery = 0 then max left_battery right_battery
  else min left_battery right_battery

/-- The drift notification built at buds.py 196-201. -/
def drift_note (left_battery right_battery : Int) : DesktopNote :=
  { title := "Buds"
    body := "Battery drift occurred L" ++ toString left_battery ++ " "
      ++ toString right_battery ++ "R"
    icon := "battery"
    urgency := 1 }

/-- Model of `Buds.battery_display_status` (buds.py 176-204): returns the
battery display text, the combined level, and the drift notification (if
any) that the call hands to the delivery sink. -/
def battery_display_status (cfg : BudsState)
    (left_battery right_battery placement_left placement_right : Int) :
    String × Int × Option DesktopNote :=
  let battery_display := toString left_battery ++ " " ++ toString right_battery
  let combined := combined_level left_battery right_battery
  if cfg.use_battery_drift_threshold then
    let drift := |left_battery - right_battery|
    if drift ≤ cfg.battery_drift_threshold ∧
        ¬(placement_left = BudsPlacementStatus.case_ ∨
          placement_right = BudsPlacementStatus.case_) then
      (toString combined, combined, none)
    else if cfg.battery_drift_threshold < drift ∧
        drift ≤ cfg.battery_drift_threshold * 2 ∧
        ¬(placement_left = BudsPlacementStatus.case_ ∨
          placement_right = BudsPlacementStatus.case_) ∧
        cfg.enable_notifications = true then
      (battery_display, combined, some (drift_note left_battery right_battery))
    else
      (battery_display, combined, none)
  else
    (battery_display, combined, none)

/-- The case-convergence notification built at buds.py 216-221. -/
def case_note (left_battery right_battery : Int) : DesktopNote :=
  { title := "Buds"
    body := "Battery level reached L" ++ toString left_battery ++ " "
      ++ toString right_battery ++ "R"
    icon := "battery"
    urgency := 1 }

/-- Model of `Buds.battery_case_display` (buds.py 206-224): returns the
case battery display text and the convergence notification (if any). -/
def battery_case_display (cfg : BudsState)
    (battery_case left_battery right_battery placement_left placement_right : Int) :
    String × Option DesktopNote :=
  if placement_left = BudsPlacementStatus.case_ ∨
      placement_right = BudsPlacementStatus.case_ then
    let text := " " ++ toString battery_case ++ cfg.battery_case_symbol
    if |left_battery - right_battery| = 0 ∧
        ¬(placement_left = BudsPlacementStatus.case_ ∧
          placement_right = BudsPlacementStatus.case_) ∧
        cfg.enable_notifications = true then
      (text, some (case_note left_battery right_battery))
    else
      (text, none)
  else
    ("", none)

/-- The touchpad lock flags of the payload's `tab_lock_status` record. -/
structure TabLockStatus where
  touch_an_hold_on : Bool
  tap_on : Bool
deriving DecidableEq

/-- Model of `Buds.touchpad_lock_status` (buds.py 270-280): `none` models
an absent (falsy) `tab_lock_status`. -/
def touchpad_lock_status (tab_lock_status : Option TabLockStatus) : String :=
  match tab_lock_status with
  | none => ""
  | some s => if !s.touch_an_hold_on && !s.tap_on then " TL" else ""

/-- Model of `Buds.translate_placement` (buds.py 285-291): dictionary
lookup with default glyph. -/
def translate_placement (cfg : BudsState) (placement : Int) : String :=
  let mapping : List (Int × String) :=
    [(BudsPlacementStatus.wearing, cfg.wearing_symbol),
     (BudsPlacementStatus.idle, cfg.idle_symbol),
     (BudsPlacementStatus.case_, cfg.case_symbol)]
  (mapping.lookup placement).getD ("?")

/-- The stepping arithmetic of `equalizer_set` (buds.py 241):
`new_eq_value = (current_eq + adjustment) % len(BudsEqualizer)`. Python's
`%` on a positive modulus returns a non-negative result, as does `Int`
euclidean remainder. -/
def new_eq_value (current_eq adjustment : Int) : Int :=
  (current_eq + adjustment) % (BudsEqualizer.members.length : Int)

/-- Model of the `equalizer_type` validation performed by `run()`
(buds.py 126): `BudsEqualizer(payload.get("equalizer_type", 0))` raises
`ValueError` when the field is present with an unrecognized value; the
field defaults to 0 when absent. -/
def run_equalizer_type (eq_field : Option Int) : Except String BudsEqualizer :=
  match budsEqualizerOfInt? (eq_field.getD 0) with
  | some m => Except.ok m
  | none => Except.error ("ValueError")

/-- Model of `Buds.equalizer_set` (buds.py 232-247): calls `run()` (whose
payload validation can raise), then re-reads `equalizer_type` with default
0 and either takes an absolute mode (`inl`) or steps by the integer
adjustment (`inr`). The result is the mode index sent to the device. -/
def equalizer_set (eq_field : Option Int) (adjustment : Sum BudsEqualizer Int) :
    Except String Int :=
  match run_equalizer_type eq_field with
  | Except.error e => Except.error e
  | Except.ok _ =>
    let current_eq := eq_field.getD 0
    match adjustment with
    | Sum.inl m => Except.ok m.val
    | Sum.inr d => Except.ok (new_eq_value current_eq d)

/-- RGB color with channels in 0..255. -/
structure HexColor where
  red : Nat
  green : Nat
  blue : Nat
deriving DecidableEq

/-- Modelled from the spec: linear interpolation of one channel between
`s` at index 0 and `e` at index `limit`; the implementation of
`ColorRangeModule.get_hex_color_range` is not under src/. -/
def interpolate_channel (s e limit i : Nat) : Nat :=
  if limit = 0 then s
  else (s * (limit - i) + e * i) / limit

/-- Modelled from the spec: `ColorRangeModule.get_hex_color_range` is not
under src/; per the spec the table is "built once from (end_color,
start_color, limit)" and "produces limit + 1 colors by linear
interpolation per RGB channel between start_color (level 0) and end_color
(level limit)". -/
def get_hex_color_range (end_color start_color : HexColor) (limit : Nat) :
    List HexColor :=
  (List.range (limit + 1)).map fun i =>
    { red := interpolate_channel start_color.red end_color.red limit i
      green := interpolate_channel start_color.green end_color.green limit i
      blue := interpolate_channel start_color.blue end_color.blue limit i }

/-- Channel-wise comparison of two colors. -/
def channelLe (c d : HexColor) : Prop :=
  c.red ≤ d.red ∧ c.green ≤ d.green ∧ c.blue ≤ d.blue

instance (c d : HexColor) : Decidable (channelLe c d) := by
  unfold channelLe
  infer_instance

/-- Pure black. -/
def blackColor : HexColor := ⟨0, 0, 0⟩

/-- Pure white. -/
def whiteColor : HexColor := ⟨255, 255, 255⟩

/-- Display-text characterization of `battery_display_status`: the single
combined number is shown exactly when the drift threshold is in use,
neither bud is on the case, and the drift is within the threshold. -/
theorem bds_fst (cfg : BudsState) (l r pl pr : Int) :
    (battery_display_status cfg l r pl pr).1 =
      if cfg.use_battery_drift_threshold = true
          ∧ ¬(pl = BudsPlacementStatus.case_ ∨ pr = BudsPlacementStatus.case_)
          ∧ |l - r| ≤ cfg.battery_drift_threshold then
        toString (combined_level l r)
      else toString l ++ " " ++ toString r := by
  simp only [battery_display_status]
  split_ifs <;> simp_all

/-- The combined level returned by `battery_display_status` is
`combined_level` of the two readings, whatever the configuration and
placements. -/
theorem bds_combined (cfg : BudsState) (l r pl pr : Int) :
    (battery_display_status cfg l r pl pr).2.1 = combined_level l r := by
  simp only [battery_display_status]
  split_ifs <;> simp_all

/-- Notification characterization of `battery_display_status`: the drift
notification is handed to the sink exactly when the drift threshold is in
use, neither bud is on the case, the drift lies in the half-open band
above the threshold, and notifications are enabled. -/
theorem bds_note (cfg : BudsState) (l r pl pr : Int) :
    (battery_display_status cfg l r pl pr).2.2 =
      if cfg.use_battery_drift_threshold = true
          ∧ ¬(pl = BudsPlacementStatus.case_ ∨ pr = BudsPlacementStatus.case_)
          ∧ cfg.battery_drift_threshold < |l - r|
          ∧ |l - r| ≤ cfg.battery_drift_threshold * 2
          ∧ cfg.enable_notifications = true then
        some (drift_note l r)
      else none := by
  simp only [battery_display_status]
  split_ifs <;> simp_all
  all_goals omega

/-- C1: for every pair of battery levels, `battery_display_status` returns
`combined_level = min(left, right)` when both levels are greater than 0,
and `combined_level = max(left, right)` when either level equals 0. -/
theorem claim_c1_combined_level (cfg : BudsState) (l r pl pr : Int) :
    (0 < l ∧ 0 < r → (battery_display_status cfg l r pl pr).2.1 = min l r) ∧
    (l = 0 ∨ r = 0 → (battery_display_status cfg l r pl pr).2.1 = max l r) := by
  constructor
  · rintro ⟨hl, hr⟩
    have h : ¬(l = 0 ∨ r = 0) := by omega
    rw [bds_combined]
    simp only [combined_level, if_neg h]
  · intro h
    rw [bds_combined]
    simp only [combined_level, if_pos h]

/-- Witness for C1 at the spec's examples: levels 53/48 give combined 48,
and levels 0/9 give combined 9. -/
theorem claim_c1_combined_level_witness :
    (battery_display_status defaultBuds 53 48 1 1).2.1 = min (53 : Int) 48 ∧
    (battery_display_status defaultBuds 0 9 1 1).2.1 = max (0 : Int) 9 :=
  ⟨(claim_c1_combined_level defaultBuds 53 48 1 1).1 (by norm_num),
   (claim_c1_combined_level defaultBuds 0 9 1 1).2 (by norm_num)⟩

/-- C3: when `use_battery_drift_threshold` is false the battery display
text is always `"<left> <right>"`; when it is true, the text is the single
combined number exactly when neither bud is on the case and the drift is
within the threshold, and `"<left> <right>"` in every other case,
independently of the notification decision (the right-hand side does not
mention `enable_notifications`). -/
theorem claim_c3_display_text (cfg : BudsState) (l r pl pr : Int) :
    (battery_display_status cfg l r pl pr).1 =
      if cfg.use_battery_drift_threshold = true
          ∧ ¬(pl = BudsPlacementStatus.case_ ∨ pr = BudsPlacementStatus.case_)
          ∧ |l - r| ≤ cfg.battery_drift_threshold then
        toString (combined_level l r)
      else toString l ++ " " ++ toString r :=
  bds_fst cfg l r pl pr

/-- C2 counterexample: with `use_battery_drift_threshold = false`, levels
48/43 (drift 5, threshold 3), neither bud on the case and notifications
enabled, the claim's conditions hold yet no drift notification is
produced, so the claimed "if and only if" fails as stated. -/
theorem claim_c2_counterexample :
    ¬(((battery_display_status
          { defaultBuds with use_battery_drift_threshold := false }
          48 43 1 1).2.2 ≠ none)
      ↔ (¬((1 : Int) = BudsPlacementStatus.case_ ∨
            (1 : Int) = BudsPlacementStatus.case_)
          ∧ (3 : Int) < |(48 : Int) - 43|
          ∧ |(48 : Int) - 43| ≤ 3 * 2
          ∧ ({ defaultBuds with
                use_battery_drift_threshold := false }.enable_notifications
              = true))) := by
  decide

/-- C2 (amended): the drift notification is produced iff
`use_battery_drift_threshold` is true, neither bud is on the case,
`drift_threshold < |left - right| ≤ 2 * drift_threshold`, and
notifications are enabled; when produced it carries the constant title
"Buds" and a body reporting the raw levels in left-then-right order. -/
theorem claim_c2_drift_note (cfg : BudsState) (l r pl pr : Int) :
    (battery_display_status cfg l r pl pr).2.2 =
      if cfg.use_battery_drift_threshold = true
          ∧ ¬(pl = BudsPlacementStatus.case_ ∨ pr = BudsPlacementStatus.case_)
          ∧ cfg.battery_drift_threshold < |l - r|
          ∧ |l - r| ≤ cfg.battery_drift_threshold * 2
          ∧ cfg.enable_notifications = true then
        some { title := "Buds"
               body := "Battery drift occurred L" ++ toString l ++ " "
                 ++ toString r ++ "R"
               icon := "battery"
               urgency := 1 }
      else none :=
  bds_note cfg l r pl pr

/-- C9: for a fixed `(drift_threshold, use_threshold)` configuration, the
display text and combined level are functions of the four inputs alone:
they are invariant under the notification-enabling flag (the only other
configuration the method reads), and repeated calls with identical inputs
return identical results. -/
theorem claim_c9_purity (cfg : BudsState) (e' : Bool) (l r pl pr : Int) :
    ((battery_display_status cfg l r pl pr).1
        = (battery_display_status
            { cfg with enable_notifications := e' } l r pl pr).1
      ∧ (battery_display_status cfg l r pl pr).2.1
        = (battery_display_status
            { cfg with enable_notifications := e' } l r pl pr).2.1)
    ∧ battery_display_status cfg l r pl pr
        = battery_display_status cfg l r pl pr := by
  refine ⟨⟨?_, ?_⟩, rfl⟩
  · rw [bds_fst, bds_fst]
  · rw [bds_combined, bds_combined]

/-- C4: when at least one bud is on the case the case battery text
`" <case_battery><case_symbol>"` is shown, and the convergence
notification is produced iff the levels are equal, not both buds are on
the case, and notifications are enabled; when neither bud is on the case
the text is empty and no notification is produced. Display and
notification are decoupled: the text does not depend on the notification
condition. -/
theorem claim_c4_case_display (cfg : BudsState) (bc l r pl pr : Int) :
    battery_case_display cfg bc l r pl pr =
      (if pl = BudsPlacementStatus.case_ ∨ pr = BudsPlacementStatus.case_ then
          " " ++ toString bc ++ cfg.battery_case_symbol
        else "",
       if (pl = BudsPlacementStatus.case_ ∨ pr = BudsPlacementStatus.case_)
           ∧ |l - r| = 0
           ∧ ¬(pl = BudsPlacementStatus.case_ ∧ pr = BudsPlacementStatus.case_)
           ∧ cfg.enable_notifications = true then
          some (case_note l r)
        else none) := by
  simp only [battery_case_display]
  split_ifs <;> simp_all

/-- C7: `translate_placement` is total: the three recognized placement
codes map to their configured glyphs and every other code maps to the
fixed unknown glyph `"?"`. -/
theorem claim_c7_translate_placement (cfg : BudsState) (p : Int) :
    translate_placement cfg p =
      if p = BudsPlacementStatus.wearing then cfg.wearing_symbol
      else if p = BudsPlacementStatus.idle then cfg.idle_symbol
      else if p = BudsPlacementStatus.case_ then cfg.case_symbol
      else "?" := by
  simp only [translate_placement, List.lookup, BudsPlacementStatus.wearing,
    BudsPlacementStatus.idle, BudsPlacementStatus.case_]
  by_cases h1 : p = 1 <;> by_cases h2 : p = 2 <;> by_cases h3 : p = 3 <;>
    simp_all [show ∀ a b : Int, (a == b) = decide (a = b) from fun a b => rfl]

/-- C10: `touchpad_lock_status` returns `" TL"` iff the lock-status record
is present with both `touch_an_hold_on` and `tap_on` unset; in every other
case it returns the empty string. -/
theorem claim_c10_touchpad (s : Option TabLockStatus) :
    (touchpad_lock_status s = " TL" ↔
      ∃ t, s = some t ∧ t.touch_an_hold_on = false ∧ t.tap_on = false)
    ∧ (touchpad_lock_status s = " TL" ∨ touchpad_lock_status s = "") := by
  cases s with
  | none =>
    refine ⟨⟨fun h => absurd h (by decide), ?_⟩, Or.inr rfl⟩
    rintro ⟨t, ht, -⟩
    exact absurd ht (by simp)
  | some t =>
    cases h1 : t.touch_an_hold_on <;> cases h2 : t.tap_on <;>
      simp_all [touchpad_lock_status]

/-- C5: equalizer stepping computes `(current + delta) mod 6` with a
non-negative result: six increments return to the start, decrementing
from 0 yields 5, and every step result lies in `[0, 5]`. -/
theorem claim_c5_equalizer_cycle (i : Int) (h0 : 0 ≤ i) (h5 : i ≤ 5) :
    new_eq_value (new_eq_value (new_eq_value (new_eq_value
      (new_eq_value (new_eq_value i 1) 1) 1) 1) 1) 1 = i
    ∧ new_eq_value 0 (-1) = 5
    ∧ ∀ c d : Int, 0 ≤ new_eq_value c d ∧ new_eq_value c d ≤ 5 := by
  refine ⟨?_, by decide, fun c d => ?_⟩ <;>
    simp only [new_eq_value, BudsEqualizer.members, List.length_cons,
      List.length_nil] <;>
    norm_num <;> omega

/-- Witness for C5: six increments starting from mode index 2 return to
index 2. -/
theorem claim_c5_equalizer_cycle_witness :
    new_eq_value (new_eq_value (new_eq_value (new_eq_value
      (new_eq_value (new_eq_value 2 1) 1) 1) 1) 1) 1 = 2 :=
  (claim_c5_equalizer_cycle 2 (by norm_num) (by norm_num)).1

/-- C8 counterexample: a payload carrying the unrecognized equalizer value
7 makes `run()` raise `ValueError` while validating the payload, so
`equalizer_set` performs no step at all instead of stepping from index 0:
the claimed result `(0 + 1) mod 6` is not produced. -/
theorem claim_c8_counterexample :
    equalizer_set (some 7) (Sum.inr 1) = Except.error ("ValueError")
    ∧ equalizer_set (some 7) (Sum.inr 1) ≠ Except.ok (((0 : Int) + 1) % 6) := by
  constructor
  · rfl
  · intro h
    exact absurd h (by simp [equalizer_set, run_equalizer_type,
      budsEqualizerOfInt?])

/-- C8 (amended): when the `equalizer_type` field is absent from the
payload it defaults to 0, so stepping yields `(0 + delta) mod 6`; when the
field is present with a value outside the six recognized indices, payload
validation in `run()` raises `ValueError` and no step result is produced
(the code neither wraps from the invalid start nor treats it as 0). -/
theorem claim_c8_invalid_mode (d : Int) :
    equalizer_set none (Sum.inr d) = Except.ok (((0 : Int) + d) % 6)
    ∧ ∀ v : Int, v < 0 ∨ 5 < v →
        equalizer_set (some v) (Sum.inr d) = Except.error ("ValueError") := by
  constructor
  · simp [equalizer_set, run_equalizer_type, budsEqualizerOfInt?,
      new_eq_value, BudsEqualizer.members]
  · intro v hv
    have h0 : ¬v = 0 := by omega
    have h1 : ¬v = 1 := by omega
    have h2 : ¬v = 2 := by omega
    have h3 : ¬v = 3 := by omega
    have h4 : ¬v = 4 := by omega
    have h5 : ¬v = 5 := by omega
    simp [equalizer_set, run_equalizer_type, budsEqualizerOfInt?,
      h0, h1, h2, h3, h4, h5]

/-- Witness for C8 (amended): stepping with an absent field yields
`(0 + 1) mod 6 = 1`, and the invalid stored value 7 yields the error. -/
theorem claim_c8_invalid_mode_witness :
    equalizer_set none (Sum.inr 1) = Except.ok (((0 : Int) + 1) % 6)
    ∧ equalizer_set (some 7) (Sum.inr 1) = Except.error ("ValueError") :=
  ⟨(claim_c8_invalid_mode 1).1, (claim_c8_invalid_mode 1).2 7 (by norm_num)⟩

/-- At index 0 the interpolated channel equals the start value. -/
theorem interpolate_channel_zero (s e limit : Nat) (h : limit ≠ 0) :
    interpolate_channel s e limit 0 = s := by
  simp only [interpolate_channel, if_neg h, Nat.sub_zero, Nat.mul_zero,
    Nat.add_zero]
  exact Nat.mul_div_cancel s (Nat.pos_of_ne_zero h)

/-- At index `limit` the interpolated channel equals the end value. -/
theorem interpolate_channel_last (s e limit : Nat) (h : limit ≠ 0) :
    interpolate_channel s e limit limit = e := by
  simp only [interpolate_channel, if_neg h, Nat.sub_self, Nat.mul_zero,
    Nat.zero_add]
  exact Nat.mul_div_cancel e (Nat.pos_of_ne_zero h)

/-- The interpolated channel is monotone in the index when the end value
dominates the start value. -/
theorem interpolate_channel_mono (s e limit i : Nat) (hse : s ≤ e)
    (hi : i < limit) :
    interpolate_channel s e limit i ≤ interpolate_channel s e limit (i + 1) := by
  have h : limit ≠ 0 := by omega
  simp only [interpolate_channel, if_neg h]
  apply Nat.div_le_div_right
  have hk : limit - i = (limit - (i + 1)) + 1 := by omega
  rw [hk, Nat.mul_succ, Nat.mul_succ]
  have hA := Nat.mul_le_mul_left (limit - (i + 1)) hse
  omega

/-- Every entry of the color table is the channel-wise interpolation at
its index. -/
theorem get_hex_color_range_getD (ec sc : HexColor) (limit j : Nat)
    (hj : j < limit + 1) :
    (get_hex_color_range ec sc limit).getD j blackColor =
      { red := interpolate_channel sc.red ec.red limit j
        green := interpolate_channel sc.green ec.green limit j
        blue := interpolate_channel sc.blue ec.blue limit j } := by
  simp [get_hex_color_range, List.getD, List.getElem?_map,
    List.getElem?_range, hj]

/-- C6: the color table built from `(end_color, start_color, limit)` has
`limit + 1` entries interpolated per RGB channel, with the entry at index
0 equal to the start color and the entry at index `limit` equal to the
end color; in particular the table built from black to white with limit
100 starts at black, ends at white, and is monotone per channel. -/
theorem claim_c6_color_gradient (ec sc : HexColor) (limit : Nat)
    (h : 0 < limit) :
    ((get_hex_color_range ec sc limit).length = limit + 1
      ∧ (get_hex_color_range ec sc limit)[0]? = some sc
      ∧ (get_hex_color_range ec sc limit)[limit]? = some ec)
    ∧ ((get_hex_color_range whiteColor blackColor 100)[0]? = some blackColor
      ∧ (get_hex_color_range whiteColor blackColor 100)[100]? = some whiteColor
      ∧ ∀ i, i < 100 →
          channelLe
            ((get_hex_color_range whiteColor blackColor 100).getD i blackColor)
            ((get_hex_color_range whiteColor blackColor 100).getD (i + 1)
              blackColor)) := by
  have hne : limit ≠ 0 := by omega
  refine ⟨⟨?_, ?_, ?_⟩, ?_, ?_, ?_⟩
  · simp [get_hex_color_range]
  · simp [get_hex_color_range, List.getElem?_map, List.getElem?_range,
      interpolate_channel_zero _ _ _ hne]
  · simp [get_hex_color_range, List.getElem?_map, List.getElem?_range,
      interpolate_channel_last _ _ _ hne]
  · simp [get_hex_color_range, List.getElem?_map, List.getElem?_range,
      interpolate_channel_zero, blackColor, whiteColor]
  · simp [get_hex_color_range, List.getElem?_map, List.getElem?_range,
      interpolate_channel_last, blackColor, whiteColor]
  · intro i hi
    rw [get_hex_color_range_getD _ _ _ _ (by omega),
      get_hex_color_range_getD _ _ _ _ (by omega)]
    exact ⟨interpolate_channel_mono _ _ _ _ (by simp [blackColor, whiteColor]) hi,
      interpolate_channel_mono _ _ _ _ (by simp [blackColor, whiteColor]) hi,
      interpolate_channel_mono _ _ _ _ (by simp [blackColor, whiteColor]) hi⟩

/-- Witness for C6 at the spec's instance: the black-to-white table with
limit 100 starts at black, and its channels are monotone at index 5. -/
theorem claim_c6_color_gradient_witness :
    (get_hex_color_range whiteColor blackColor 100)[0]? = some blackColor
    ∧ channelLe
        ((get_hex_color_range whiteColor blackColor 100).getD 5 blackColor)
        ((get_hex_color_range whiteColor blackColor 100).getD 6 blackColor) :=
  ⟨(claim_c6_color_gradient whiteColor blackColor 100 (by norm_num)).2.1,
   (claim_c6_color_gradient whiteColor blackColor 100 (by norm_num)).2.2.2 5
     (by norm_num)⟩
